import Mathlib

/-!
Verification of the DRS client library (drs_cli / drs_client).

The definitions below shallowly embed `src/drs_cli/client.py` (and, where a
claim touches it, the legacy `src/drs_client/client.py`).  The regular
expressions `_RE_HOST` and `_RE_OBJECT_ID` are embedded as backtracking
matchers that enumerate candidate match lengths in the same priority order
as Python's `re` engine (greedy, leftmost alternative first); the module's
pydantic models (`drs_cli/models.py` is not part of the source tree) are
modelled from the specification's wire shapes.
-/

namespace DRS

/-- Character class `[a-z0-9]` under `re.I`: ASCII letters and digits. -/
def isAlnumCI (c : Char) : Bool :=
  ('a' ≤ c && c ≤ 'z') || ('A' ≤ c && c ≤ 'Z') || ('0' ≤ c && c ≤ '9')

/-- Character class `[a-z0-9-]` under `re.I`. -/
def isLabelChar (c : Char) : Bool :=
  isAlnumCI c || c = '-'

/-- Length of the maximal run of `[a-z0-9-]` characters at the head. -/
def runLen : List Char → Nat
  | [] => 0
  | c :: cs => if isLabelChar c then runLen cs + 1 else 0

/-- Candidate match lengths, in backtracking priority order, of the domain
label pattern `_RE_DOMAIN_PART = [a-z0-9]([a-z0-9-]{1,61}[a-z0-9]?)?`
at the head of `cs`.  Greedy semantics: the optional group present first,
the bounded repetition from its largest count down, the optional trailing
alphanumeric present first. -/
def labelCands (cs : List Char) : List Nat :=
  match cs with
  | [] => []
  | c :: rest =>
    if isAlnumCI c then
      let m := min (runLen rest) 61
      ((List.range m).map (fun i => m - i)).flatMap (fun k =>
        match cs.get? (1 + k) with
        | some c2 => if isAlnumCI c2 then [1 + k + 1, 1 + k] else [1 + k]
        | none => [1 + k]) ++ [1]
    else []

/-- Candidate lengths of one label followed by a literal dot, in priority
order (the first step of `(part\.)+`). -/
def labelDotCands (cs : List Char) : List Nat :=
  (labelCands cs).filterMap (fun n =>
    if cs.get? n = some '.' then some (n + 1) else none)

/-- Candidate lengths of the final `part\.?` of the domain pattern, in
priority order (for each label length, dot present before dot absent). -/
def finalCands (cs : List Char) : List Nat :=
  (labelCands cs).flatMap (fun n =>
    if cs.get? n = some '.' then [n + 1, n] else [n])

/-- Candidate lengths of `(part\.)* part\.?` in backtracking priority order
(another loop iteration is preferred over exiting the loop).  `fuel` bounds
the recursion; every loop iteration consumes at least two characters, so
`fuel = cs.length` is always sufficient. -/
def restCands : Nat → List Char → List Nat
  | 0, _ => []
  | fuel + 1, cs =>
    ((labelDotCands cs).flatMap (fun d =>
      (restCands fuel (cs.drop d)).map (fun r => d + r))) ++ finalCands cs

/-- Candidate lengths of `_RE_DOMAIN = (part\.)+part\.?` at the head of
`cs`, in backtracking priority order.  The Python regex engine commits to
the first of these that lets the rest of the enclosing pattern match. -/
def hostCands (cs : List Char) : List Nat :=
  (labelDotCands cs).flatMap (fun d =>
    (restCands cs.length (cs.drop d)).map (fun r => d + r))

/-- ASCII lower-casing, as performed by `re.I` on the pattern literals. -/
def lowerChar (c : Char) : Char :=
  if 'A' ≤ c && c ≤ 'Z' then Char.ofNat (c.toNat + 32) else c

/-- Case-insensitive literal match of `pat` (given lower-case) at the head
of `cs`. -/
def startsWithCI : List Char → List Char → Bool
  | [], _ => true
  | _ :: _, [] => false
  | p :: ps, c :: cs => (lowerChar c = p) && startsWithCI ps cs

/-- The scheme alternation `^(?P<schema>drs|http|https):\/\/` of `_RE_HOST`:
on success, the captured scheme text (original case) and the input after
the `://`.  The three alternatives are mutually exclusive. -/
def schemeSplit (cs : List Char) : Option (List Char × List Char) :=
  if startsWithCI "drs://".data cs then some (cs.take 3, cs.drop 6)
  else if startsWithCI "https://".data cs then some (cs.take 5, cs.drop 8)
  else if startsWithCI "http://".data cs then some (cs.take 4, cs.drop 7)
  else none

/-- `str.rstrip('\\')` on a character list. -/
def rstripBS (cs : List Char) : List Char :=
  (cs.reverse.dropWhile (fun c => c = '\\')).reverse

/-- `re.search(_RE_HOST, uri, re.I)` followed by the group extraction of
`DRSClient._get_host`: the captured scheme and the captured host with
trailing backslashes stripped.  After the host group the pattern only has
the optional `\/?`, which always succeeds, so the engine commits to the
first host candidate; the captured groups keep their original case, and
`match.group('host')` is post-processed by `.rstrip('\\')`. -/
def hostFromRest (sch rest : List Char) : Option (String × String) :=
  match (hostCands rest).head? with
  | none => none
  | some n => some (⟨sch⟩, ⟨rstripBS (rest.take n)⟩)

/-- `re.search(_RE_HOST, uri, re.I)` as a whole: the scheme alternation,
then the host match on the remainder. -/
def hostExtract (uri : String) : Option (String × String) :=
  match schemeSplit uri.data with
  | none => none
  | some (sch, rest) => hostFromRest sch rest

/-- Exception kinds that can leave the client's methods, plus the internal
pydantic `ValidationError` (which the client always catches). -/
inductive Err where
  | invalidURI
  | invalidObjectData
  | invalidResponseError
  | validationError
  | typeError
  | jsonDecodeError
  | attributeError
  deriving DecidableEq

/-- `DRSClient._get_host`: extract scheme and host or raise `InvalidURI`;
hosts longer than 253 characters are rejected. -/
def getHost (uri : String) : Except Err (String × String) :=
  match hostExtract uri with
  | none => .error .invalidURI
  | some (sch, host) =>
    if 253 < host.length then .error .invalidURI else .ok (sch, host)

/-- UTF-8 encoding of one character, as Python encodes a `str` before
percent-encoding. -/
def utf8Bytes (c : Char) : List Nat :=
  if c.toNat < 128 then [c.toNat]
  else if c.toNat < 2048 then [192 + c.toNat / 64, 128 + c.toNat % 64]
  else if c.toNat < 65536 then
    [224 + c.toNat / 4096, 128 + (c.toNat / 64) % 64, 128 + c.toNat % 64]
  else
    [240 + c.toNat / 262144, 128 + (c.toNat / 4096) % 64,
     128 + (c.toNat / 64) % 64, 128 + c.toNat % 64]

/-- Upper-case hexadecimal digit, as emitted by `urllib.parse.quote`. -/
def hexDigit (n : Nat) : Char :=
  if n < 10 then Char.ofNat (48 + n) else Char.ofNat (55 + n)

/-- Bytes `urllib.parse.quote` leaves unencoded with `safe=''`: ASCII
letters, digits, and `_ . - ~`. -/
def isUnreservedByte (b : Nat) : Bool :=
  (48 ≤ b && b ≤ 57) || (65 ≤ b && b ≤ 90) || (97 ≤ b && b ≤ 122) ||
    b = 45 || b = 46 || b = 95 || b = 126

/-- Percent-encoding of a single byte. -/
def quoteByte (b : Nat) : List Char :=
  if isUnreservedByte b then [Char.ofNat b]
  else ['%', hexDigit (b / 16), hexDigit (b % 16)]

/-- `urllib.parse.quote(string=s, safe='')`. -/
def quote (s : String) : String :=
  ⟨(s.data.flatMap utf8Bytes).flatMap quoteByte⟩

/-- The core a match of `.+$` must capture: since `$` also matches just
before one final trailing newline, the candidate capture is the input
minus at most one trailing newline. -/
def dollarCore (cs : List Char) : List Char :=
  if cs.getLast? = some '\n' then cs.dropLast else cs

/-- The identifier group `(?P<obj_id>.+)$` of `_RE_OBJECT_ID`, applied to
the remainder of the input: `.` does not match a newline, so the group
captures `dollarCore` provided that core is nonempty and newline-free. -/
def dotPlusDollar (cs : List Char) : Option (List Char) :=
  if dollarCore cs = [] then none
  else if '\n' ∈ dollarCore cs then none
  else some (dollarCore cs)

/-- The optional group `(drs:\/\/domain\/)?` of `_RE_OBJECT_ID`, tried
first by the engine: each domain candidate in priority order, each
followed by the mandatory slash and a match of `.+$` on the remainder;
the first full success yields the captured identifier.  When every
attempt fails the group is skipped (`none`). -/
def drsUriCapture (cs : List Char) : Option (List Char) :=
  if startsWithCI "drs://".data cs then
    (hostCands (cs.drop 6)).findSome? (fun n =>
      if (cs.drop 6).get? n = some '/' then
        dotPlusDollar ((cs.drop 6).drop (n + 1))
      else none)
  else none

/-- `DRSClient._get_object_id` proper: the capture of the matched group if
the pattern matched with the prefix group, else, if `.+$` matches the
whole input, the whole input, else no match (`AttributeError`); the
capture is percent-encoded with `safe=''`. -/
def getObjectId (s : String) : Option String :=
  match drsUriCapture s.data with
  | some core => some (quote ⟨core⟩)
  | none =>
    match dotPlusDollar s.data with
    | some core => some (quote ⟨core⟩)
    | none => none

/-- A JSON value, the result of `response.json()`. -/
inductive Json where
  | null
  | bool (b : Bool)
  | num (n : Int)
  | str (s : String)
  | arr (xs : List Json)
  | obj (kvs : List (String × Json))

/-- Modelled from the spec: the Error wire shape `{msg, status_code}`
(`drs_cli/models.py` is not in the source tree, so the pydantic model's
required fields are taken from the specification's wire shapes). -/
def errorFields : List String := ["msg", "status_code"]

/-- Modelled from the spec: the Object record wire shape, with fields
`id`, `self_uri`, `created_time`, `updated_time`, `version`, `size`,
`mime_type`, `checksums`, `access_methods`. -/
def drsObjectFields : List String :=
  ["id", "self_uri", "created_time", "updated_time", "version", "size",
   "mime_type", "checksums", "access_methods"]

/-- Modelled from the spec: the Access-URL record wire shape `{url,
headers[]}`; only `url` is treated as mandatory. -/
def accessURLFields : List String := ["url"]

/-- Modelled from the spec: the object-creation shape — the Object record
without the server-assigned `id` and `self_uri`. -/
def postDrsObjectFields : List String :=
  ["created_time", "updated_time", "version", "size", "mime_type",
   "checksums", "access_methods"]

/-- `Model(**j)` for a pydantic model with the given required fields:
expanding a non-mapping with `**` raises `TypeError`; a mapping missing a
required field raises `pydantic.ValidationError`; otherwise the validated
value is returned (extra fields are ignored by pydantic's default
config). -/
def kwargsModel (required : List String) (j : Json) : Except Err Json :=
  match j with
  | .obj kvs =>
    if required.all (fun k => (List.lookup k kvs).isSome) then .ok (.obj kvs)
    else .error .validationError
  | _ => .error .typeError

mutual

/-- Python `repr` of a decoded JSON value (single quotes around strings;
escaping inside strings is not modelled, no claim depends on it). -/
def pyRepr : Json → String
  | .null => "None"
  | .bool true => "True"
  | .bool false => "False"
  | .num n => toString n
  | .str s => "'" ++ s ++ "'"
  | .arr xs => "[" ++ pyReprList xs ++ "]"
  | .obj kvs => "\x7b" ++ pyReprKVs kvs ++ "\x7d"

/-- Python `repr` of a list body, comma-separated. -/
def pyReprList : List Json → String
  | [] => ""
  | [x] => pyRepr x
  | x :: xs => pyRepr x ++ ", " ++ pyReprList xs

/-- Python `repr` of a dict body, comma-separated `'key': value` pairs. -/
def pyReprKVs : List (String × Json) → String
  | [] => ""
  | [(k, v)] => "'" ++ k ++ "': " ++ pyRepr v
  | (k, v) :: kvs => "'" ++ k ++ "': " ++ pyRepr v ++ ", " ++ pyReprKVs kvs

end

/-- Python `str` of a decoded JSON value (differs from `repr` only on
strings). -/
def pyStr : Json → String
  | .str s => s
  | j => pyRepr j

/-- Python truthiness of the `token` attribute/argument: `if token:` is
true for a present, nonempty string. -/
def tokenTruthy : Option String → Bool
  | none => false
  | some t => !(t == "")

/-- `DRSClient._get_headers`: `Content-type` always, `Authorization:
Bearer <token>` added when the stored token is truthy. -/
def getHeaders (token : Option String) : List (String × String) :=
  if tokenTruthy token then
    [("Content-type", "application/json"),
     ("Authorization", "Bearer " ++ token.getD "")]
  else [("Content-type", "application/json")]

/-- The client's mutable attributes set by `DRSClient.__init__`. -/
structure ClientState where
  uri : String
  token : Option String
  headers : List (String × String)
  deriving DecidableEq

/-- Line 76 of `client.py`: a `drs` scheme becomes the transport scheme
`https`, or `http` when `use_http` is set; other scheme strings pass
through unchanged. -/
def effectiveSchema (schema : String) (useHttp : Bool) : String :=
  if schema = "drs" then (if useHttp then "http" else "https") else schema

/-- Line 78 of `client.py`: `port = 80 if schema == 'http' else 443`. -/
def defaultPort (schema : String) : Nat :=
  if schema = "http" then 80 else 443

/-- `DRSClient.__init__` of `drs_cli`: resolve the host, apply the scheme
and port defaults, compose the endpoint URI and the initial headers. -/
def initClient (uri : String) (port : Option Nat) (basePath : String)
    (useHttp : Bool) (token : Option String) : Except Err ClientState :=
  match getHost uri with
  | .error e => .error e
  | .ok (schema, host) =>
    let schema := effectiveSchema schema useHttp
    let port := match port with
      | some p => p
      | none => defaultPort schema
    .ok { uri := schema ++ "://" ++ host ++ ":" ++ toString port ++ "/" ++
            basePath
        , token := token
        , headers := getHeaders token }

/-- `DRSClient.__init__` of the legacy `drs_client`: the `host` argument is
interpolated verbatim (no scheme parsing, no scheme translation) and the
default port is the string `'8080'`. -/
def oldClientUrl (host : String) (port : String) (basePath : String) :
    String :=
  host ++ ":" ++ port ++ "/" ++ basePath

/-- One HTTP exchange delivered by the transport: the response status code
and the decoded body (`none` when the body is not valid JSON, in which
case `response.json()` raises `json.decoder.JSONDecodeError`). -/
structure HttpResponse where
  status : Nat
  body : Option Json

/-- A request as handed to the `requests` library. -/
structure SentRequest where
  method : String
  url : String
  headers : List (String × String)
  body : Option Json

/-- The value an operation returns on its non-raising paths. -/
inductive OpResult where
  | obj (j : Json)
  | access (j : Json)
  | ident (s : String)
  | err (j : Json)

/-- Everything observable about one operation call: the returned value or
escaped exception, the client state after the call, and the requests that
reached the transport. -/
structure Outcome where
  result : Except Err OpResult
  state : ClientState
  sent : List SentRequest

/-- The non-200 branch shared by all four operations: parse the body as
the Error model; `json.decoder.JSONDecodeError` and
`pydantic.ValidationError` are caught and re-raised as
`InvalidResponseError`, anything else (the `TypeError` from `**` on a
non-mapping body) propagates. -/
def handleErrorBranch (body : Option Json) : Except Err OpResult :=
  match body with
  | none => .error .invalidResponseError
  | some j =>
    match kwargsModel errorFields j with
    | .ok e => .ok (.err e)
    | .error .validationError => .error .invalidResponseError
    | .error e => .error e

/-- The 200 branch of `get_object`: only `pydantic.ValidationError` is
caught (and re-raised as `InvalidResponseError`); a `JSONDecodeError` from
`response.json()` propagates. -/
def getObjectSuccess (body : Option Json) : Except Err OpResult :=
  match body with
  | none => .error .jsonDecodeError
  | some j =>
    match kwargsModel drsObjectFields j with
    | .ok o => .ok (.obj o)
    | .error .validationError => .error .invalidResponseError
    | .error e => .error e

/-- The 200 branch of `get_access_url`, analogous to `getObjectSuccess`
with the AccessURL model. -/
def getAccessURLSuccess (body : Option Json) : Except Err OpResult :=
  match body with
  | none => .error .jsonDecodeError
  | some j =>
    match kwargsModel accessURLFields j with
    | .ok a => .ok (.access a)
    | .error .validationError => .error .invalidResponseError
    | .error e => .error e

/-- The 200 branch of `post_object` and `delete_object`:
`str(response.json())`, catching `JSONDecodeError` as
`InvalidResponseError`; `str` itself never fails. -/
def identSuccess (body : Option Json) : Except Err OpResult :=
  match body with
  | none => .error .invalidResponseError
  | some j => .ok (.ident (pyStr j))

/-- `if not response.status_code == 200:` — the error branch runs for
every status other than exactly 200. -/
def dispatch (success : Option Json → Except Err OpResult)
    (resp : HttpResponse) : Except Err OpResult :=
  if resp.status = 200 then success resp.body else handleErrorBranch resp.body

/-- The per-call token lines shared by all four operations: `if token:
self.token = token; self._get_headers()`.  The return value of
`_get_headers()` is discarded by the source, so `headers` keeps its value
from construction time. -/
def tokenUpdate (st : ClientState) (token : Option String) : ClientState :=
  if tokenTruthy token then { st with token := token } else st

/-- `DRSClient.get_object`: resolve the identifier (raising
`AttributeError` when the identifier pattern does not match), compose the
URL, apply the per-call token, send, and validate the response. -/
def get_object (st : ClientState) (objectId : String)
    (token : Option String) (resp : HttpResponse) : Outcome :=
  match getObjectId objectId with
  | none => ⟨.error .attributeError, st, []⟩
  | some objId =>
    let url := st.uri ++ "/objects/" ++ objId
    let st1 := tokenUpdate st token
    ⟨dispatch getObjectSuccess resp, st1, [⟨"GET", url, st1.headers, none⟩]⟩

/-- `DRSClient.get_access_url`: like `get_object`, with the access-method
identifier percent-encoded by `quote(access_id, safe='')`. -/
def get_access_url (st : ClientState) (objectId : String)
    (accessId : String) (token : Option String) (resp : HttpResponse) :
    Outcome :=
  match getObjectId objectId with
  | none => ⟨.error .attributeError, st, []⟩
  | some objId =>
    let accId := quote accessId
    let url := st.uri ++ "/objects/" ++ objId ++ "/access/" ++ accId
    let st1 := tokenUpdate st token
    ⟨dispatch getAccessURLSuccess resp, st1,
      [⟨"GET", url, st1.headers, none⟩]⟩

/-- Validation of the outgoing payload: `PostDrsObject(**object_data)`
with the spec-modelled object-creation shape. -/
def postPayloadValid (payload : List (String × Json)) : Bool :=
  postDrsObjectFields.all (fun k => (List.lookup k payload).isSome)

/-- `DRSClient.post_object`: the per-call token is applied first, then the
payload is validated (an invalid payload raises `InvalidObjectData` with
no request sent), then the request goes out. -/
def post_object (st : ClientState) (payload : List (String × Json))
    (token : Option String) (resp : HttpResponse) : Outcome :=
  let url := st.uri ++ "/objects"
  let st1 := tokenUpdate st token
  if postPayloadValid payload then
    ⟨dispatch identSuccess resp, st1,
      [⟨"POST", url, st1.headers, some (.obj payload)⟩]⟩
  else ⟨.error .invalidObjectData, st1, []⟩

/-- `DRSClient.delete_object`: like `get_object` with the DELETE method
and the identifier-string success shape. -/
def delete_object (st : ClientState) (objectId : String)
    (token : Option String) (resp : HttpResponse) : Outcome :=
  match getObjectId objectId with
  | none => ⟨.error .attributeError, st, []⟩
  | some objId =>
    let url := st.uri ++ "/objects/" ++ objId
    let st1 := tokenUpdate st token
    ⟨dispatch identSuccess resp, st1,
      [⟨"DELETE", url, st1.headers, none⟩]⟩

/-- A host of 258 characters (four 63-character labels, three dots joined,
then a final two-character label), exceeding the 253-character bound. -/
def longHost : String :=
  "aaaaaaaaaaaaaaaaaaaaaaaaaaaaaaaaaaaaaaaaaaaaaaaaaaaaaaaaaaaaaaa." ++
  "aaaaaaaaaaaaaaaaaaaaaaaaaaaaaaaaaaaaaaaaaaaaaaaaaaaaaaaaaaaaaaa." ++
  "aaaaaaaaaaaaaaaaaaaaaaaaaaaaaaaaaaaaaaaaaaaaaaaaaaaaaaaaaaaaaaa." ++
  "aaaaaaaaaaaaaaaaaaaaaaaaaaaaaaaaaaaaaaaaaaaaaaaaaaaaaaaaaaaaaaa.ab"

/-- A DRS URI whose host part is `longHost`. -/
def longUri : String := "drs://" ++ longHost ++ "/SOME_OBJECT"

/-- A valid error body `{"msg": ..., "status_code": ...}`. -/
def errBody : Json := .obj [("msg", .str "mock_message"), ("status_code", .str "400")]

/-- A payload containing every field the object-creation shape requires. -/
def fullPostPayload : List (String × Json) :=
  [("created_time", .str "2019-05-20T00:12:34-07:00"),
   ("updated_time", .str "2019-04-24T05:23:43-06:00"),
   ("version", .str "1"), ("size", .num 5), ("mime_type", .str ""),
   ("checksums", .arr []), ("access_methods", .arr [])]

/-- A client state as produced by construction without a token. -/
def plainState : ClientState :=
  { uri := "https://my.host:443/ga4gh/drs/v1"
  , token := none
  , headers := [("Content-type", "application/json")] }

end DRS

deriving instance DecidableEq for Except

namespace DRS

set_option maxRecDepth 40000

/-! ### Auxiliary lemmas -/

theorem string_data_ne_nil (s : String) (h : s ≠ "") : s.data ≠ [] := by
  intro hd
  apply h
  apply String.ext
  simpa using hd

theorem dotPlusDollar_eq_core (cs : List Char) (hne : dollarCore cs ≠ [])
    (hnl : '\n' ∉ dollarCore cs) :
    dotPlusDollar cs = some (dollarCore cs) := by
  simp [dotPlusDollar, hne, hnl]

theorem dotPlusDollar_eq_self (cs : List Char) (hne : cs ≠ [])
    (hnl : '\n' ∉ cs) : dotPlusDollar cs = some cs := by
  have h1 : ¬cs.getLast? = some '\n' := fun h =>
    hnl (List.mem_of_mem_getLast? h)
  simp [dotPlusDollar, dollarCore, h1, hne, hnl]

theorem char_toNat_lt (c : Char) : c.toNat < 1114112 := by
  have hv : c.val.toNat < 55296 ∨ (57344 ≤ c.val.toNat ∧
      c.val.toNat < 1114112) := c.valid
  have he : c.toNat = c.val.toNat := rfl
  omega

theorem utf8Bytes_lt_256 (c : Char) : ∀ b ∈ utf8Bytes c, b < 256 := by
  intro b hb
  have hv : c.toNat < 1114112 := char_toNat_lt c
  unfold utf8Bytes at hb
  split at hb
  · rcases List.mem_singleton.mp hb with rfl; omega
  · split at hb
    · rcases List.mem_cons.mp hb with rfl | hb1
      · omega
      · rcases List.mem_singleton.mp hb1 with rfl; omega
    · split at hb
      · rcases List.mem_cons.mp hb with rfl | hb1
        · omega
        rcases List.mem_cons.mp hb1 with rfl | hb2
        · omega
        · rcases List.mem_singleton.mp hb2 with rfl; omega
      · rcases List.mem_cons.mp hb with rfl | hb1
        · omega
        rcases List.mem_cons.mp hb1 with rfl | hb2
        · omega
        rcases List.mem_cons.mp hb2 with rfl | hb3
        · omega
        · rcases List.mem_singleton.mp hb3 with rfl; omega

theorem unreserved_ofNat_ne_slash :
    ∀ b : Nat, b < 256 → isUnreservedByte b = true → Char.ofNat b ≠ '/' := by
  decide

theorem hexDigit_ne_slash : ∀ n : Nat, n < 16 → hexDigit n ≠ '/' := by
  decide

theorem quoteByte_no_slash (b : Nat) (hb : b < 256) : '/' ∉ quoteByte b := by
  intro hmem
  unfold quoteByte at hmem
  split at hmem
  · next h =>
    rcases List.mem_singleton.mp hmem with h1
    exact unreserved_ofNat_ne_slash b hb h h1.symm
  · next h =>
    rcases List.mem_cons.mp hmem with h1 | hmem1
    · exact absurd h1 (by decide)
    rcases List.mem_cons.mp hmem1 with h1 | hmem2
    · exact hexDigit_ne_slash (b / 16) (by omega) h1.symm
    rcases List.mem_cons.mp hmem2 with h1 | hmem3
    · exact hexDigit_ne_slash (b % 16) (by omega) h1.symm
    · exact absurd hmem3 (List.not_mem_nil '/')

theorem quote_no_slash (s : String) : '/' ∉ (quote s).data := by
  intro h
  have h' : '/' ∈ (s.data.flatMap utf8Bytes).flatMap quoteByte := h
  rcases List.mem_flatMap.mp h' with ⟨b, hb, hbmem⟩
  rcases List.mem_flatMap.mp hb with ⟨c, _, hcb⟩
  exact quoteByte_no_slash b (utf8Bytes_lt_256 c b hcb) hbmem

theorem startsWithCI_drs (cs : List Char) :
    startsWithCI "drs://".data
      ('d' :: 'r' :: 's' :: ':' :: '/' :: '/' :: cs) = true := by
  have h : "drs://".data = ['d', 'r', 's', ':', '/', '/'] := rfl
  rw [h]
  simp [startsWithCI, lowerChar]

theorem drsUriCapture_of_valid (host id : String)
    (hhost : (hostCands (host.data ++ '/' :: id.data)).head?
      = some host.data.length)
    (hne : id ≠ "") (hnl : '\n' ∉ id.data) :
    drsUriCapture ("drs://" ++ host ++ "/" ++ id).data = some id.data := by
  have hdata : ("drs://" ++ host ++ "/" ++ id).data
      = 'd' :: 'r' :: 's' :: ':' :: '/' :: '/' ::
          (host.data ++ '/' :: id.data) := by
    simp [String.data_append]
  rw [drsUriCapture, hdata]
  rw [startsWithCI_drs]
  have hdrop6 : List.drop 6
      ('d' :: 'r' :: 's' :: ':' :: '/' :: '/' ::
        (host.data ++ '/' :: id.data)) = host.data ++ '/' :: id.data := rfl
  rw [if_pos rfl, hdrop6]
  obtain ⟨t, ht⟩ : ∃ t, hostCands (host.data ++ '/' :: id.data)
      = host.data.length :: t := by
    cases hc : hostCands (host.data ++ '/' :: id.data) with
    | nil => rw [hc] at hhost; cases hhost
    | cons a t =>
      rw [hc] at hhost
      have ha : a = host.data.length := Option.some_inj.mp hhost
      exact ⟨t, by rw [ha]⟩
  rw [ht, List.findSome?_cons]
  have hget : (host.data ++ '/' :: id.data).get? host.data.length
      = some '/' := by
    rw [List.get?_append_right (le_refl _)]
    simp
  have hdrop : (host.data ++ '/' :: id.data).drop (host.data.length + 1)
      = id.data := by
    rw [← List.drop_drop, List.drop_left]
    rfl
  rw [if_pos hget, hdrop,
    dotPlusDollar_eq_self id.data (string_data_ne_nil id hne) hnl]

theorem labelDotCands_dot (cs : List Char) (d : Nat)
    (hd : d ∈ labelDotCands cs) :
    ∃ m, cs.get? m = some '.' ∧ d = m + 1 := by
  unfold labelDotCands at hd
  rcases List.mem_filterMap.mp hd with ⟨m, _, hm⟩
  by_cases h : cs.get? m = some '.'
  · rw [if_pos h] at hm
    exact ⟨m, h, (Option.some_inj.mp hm).symm⟩
  · rw [if_neg h] at hm
    cases hm

theorem hostCands_dot (cs : List Char) (n : Nat) (hn : n ∈ hostCands cs) :
    ∃ m, cs.get? m = some '.' ∧ m < n := by
  unfold hostCands at hn
  rcases List.mem_flatMap.mp hn with ⟨d, hd, hmem⟩
  rcases List.mem_map.mp hmem with ⟨r, _, hr⟩
  rcases labelDotCands_dot cs d hd with ⟨m, hm, rfl⟩
  exact ⟨m, hm, by omega⟩

theorem mem_rstripBS (cs : List Char) (a : Char) (ha : a ∈ cs)
    (hne : ¬a = '\\') : a ∈ rstripBS cs := by
  unfold rstripBS
  rw [List.mem_reverse]
  have h1 : a ∈ cs.reverse := List.mem_reverse.mpr ha
  rw [← List.takeWhile_append_dropWhile
    (p := fun c => decide (c = '\\')) (l := cs.reverse)] at h1
  rcases List.mem_append.mp h1 with h2 | h2
  · have h3 := List.mem_takeWhile_imp h2
    simp at h3
    exact absurd h3 hne
  · exact h2

theorem hostExtract_eq_of_schemeSplit (uri : String) (sch rest : List Char)
    (hss : schemeSplit uri.data = some (sch, rest)) :
    hostExtract uri = hostFromRest sch rest := by
  unfold hostExtract
  rw [hss]

theorem hostExtract_eq_none_of_schemeSplit (uri : String)
    (hss : schemeSplit uri.data = none) : hostExtract uri = none := by
  unfold hostExtract
  rw [hss]

theorem hostExtract_host_has_dot (uri sch host : String)
    (hx : hostExtract uri = some (sch, host)) : '.' ∈ host.data := by
  cases hss : schemeSplit uri.data with
  | none =>
    rw [hostExtract_eq_none_of_schemeSplit uri hss] at hx
    cases hx
  | some p =>
    obtain ⟨sch0, rest⟩ := p
    rw [hostExtract_eq_of_schemeSplit uri sch0 rest hss] at hx
    unfold hostFromRest at hx
    cases hh : (hostCands rest).head? with
    | none => rw [hh] at hx; cases hx
    | some n =>
      rw [hh] at hx
      simp only [Option.some_inj, Prod.mk.injEq] at hx
      obtain ⟨h1, h2⟩ := hx
      have hn : n ∈ hostCands rest := by
        cases hc : hostCands rest with
        | nil => rw [hc] at hh; cases hh
        | cons a t =>
          rw [hc] at hh
          have ha : a = n := Option.some_inj.mp hh
          rw [← ha]
          exact List.mem_cons_self _ _
      rcases hostCands_dot rest n hn with ⟨m, hm, hmn⟩
      have htake : (rest.take n).get? m = some '.' := by
        rw [List.get?_take hmn]
        exact hm
      have hmem : '.' ∈ rest.take n := List.get?_mem htake
      have hstrip : '.' ∈ rstripBS (rest.take n) :=
        mem_rstripBS _ _ hmem (by decide)
      rw [← h2]
      exact hstrip

theorem hostExtract_none_of_no_dot (uri : String) (h : '.' ∉ uri.data) :
    hostExtract uri = none := by
  cases hss : schemeSplit uri.data with
  | none => exact hostExtract_eq_none_of_schemeSplit uri hss
  | some p =>
    obtain ⟨sch0, rest⟩ := p
    have hrest : '.' ∉ rest := by
      intro hdot
      apply h
      unfold schemeSplit at hss
      split at hss
      · simp only [Option.some_inj, Prod.mk.injEq] at hss
        exact List.mem_of_mem_drop (hss.2 ▸ hdot)
      · split at hss
        · simp only [Option.some_inj, Prod.mk.injEq] at hss
          exact List.mem_of_mem_drop (hss.2 ▸ hdot)
        · split at hss
          · simp only [Option.some_inj, Prod.mk.injEq] at hss
            exact List.mem_of_mem_drop (hss.2 ▸ hdot)
          · cases hss
    have hldc : labelDotCands rest = [] := by
      rcases hlc : labelDotCands rest with _ | ⟨d, t⟩
      · rfl
      · exfalso
        have hd : d ∈ labelDotCands rest := by
          rw [hlc]
          exact List.mem_cons_self _ _
        rcases labelDotCands_dot rest d hd with ⟨m, hm, _⟩
        exact hrest (List.get?_mem hm)
    have hhc : hostCands rest = [] := by
      unfold hostCands
      rw [hldc]
      rfl
    rw [hostExtract_eq_of_schemeSplit uri sch0 rest hss]
    unfold hostFromRest
    rw [hhc]
    rfl

/-! ### Claims -/

/-- C1: the claim says a per-call bearer token replaces the stored token
AND that the headers used for that request carry `Authorization: Bearer
<supplied token>`.  The code replaces the stored token, but the call
`self._get_headers()` discards its return value and `self.headers` is
only ever assigned in `__init__`, so the request of that very call (and
of all later calls) goes out with the headers computed at construction:
for a client built without a token, a `get_object` call with a per-call
token sends no Authorization header at all. -/
theorem C1_stale_headers_on_token_override :
    initClient "https://my.host" none "ga4gh/drs/v1" false none
      = .ok plainState ∧
    plainState.headers = [("Content-type", "application/json")] ∧
    (get_object plainState "OBJ1" (some "MyT0k3n")
        ⟨404, some errBody⟩).state.token = some "MyT0k3n" ∧
    (get_object plainState "OBJ1" (some "MyT0k3n")
        ⟨404, some errBody⟩).sent.map SentRequest.headers
      = [[("Content-type", "application/json")]] := by
  refine ⟨by decide, rfl, rfl, rfl⟩

/-- C2 (counterexample): the resolver is claimed never to fail by
raising, but on the empty string the identifier pattern has no match,
`match` is `None`, and `match.group` raises `AttributeError`. -/
theorem C2_counterexample_empty_input : getObjectId "" = none := rfl

/-- C2 (amended): for every input the identifier pattern matches — every
input that, after removing at most one trailing newline (`dollarCore`),
is a nonempty newline-free string — the resolver returns a
percent-encoded identifier; and when the `drs://<domain>/<id>` prefix
group does not match, the input degrades to a literal identifier: the
result is exactly the percent-encoding of that core (the entire input
when it has no trailing newline).  Inputs the pattern rejects (such as
the empty string) raise instead. -/
theorem C2_resolveObjectId_total_on_matchable (s : String)
    (hne : dollarCore s.data ≠ []) (hnl : '\n' ∉ dollarCore s.data) :
    (getObjectId s).isSome = true ∧
    (drsUriCapture s.data = none →
      getObjectId s = some (quote ⟨dollarCore s.data⟩)) := by
  have hdp : dotPlusDollar s.data = some (dollarCore s.data) :=
    dotPlusDollar_eq_core s.data hne hnl
  constructor
  · unfold getObjectId
    cases h : drsUriCapture s.data with
    | some core => rfl
    | none =>
      rw [hdp]
      rfl
  · intro hcap
    unfold getObjectId
    rw [hcap, hdp]

/-- C2 (witness): the amended theorem applied to the input `abc`
followed by a trailing newline, an input the prefix group does not
match: the resolver captures and encodes the core `abc`. -/
theorem C2_witness :
    dollarCore ("abc\n" : String).data ≠ [] ∧
    '\n' ∉ dollarCore ("abc\n" : String).data ∧
    drsUriCapture ("abc\n" : String).data = none ∧
    (getObjectId "abc\n").isSome = true ∧
    getObjectId "abc\n" = some (quote ⟨dollarCore ("abc\n" : String).data⟩) ∧
    getObjectId "abc\n" = some "abc" :=
  ⟨by decide, by decide, by decide,
    (C2_resolveObjectId_total_on_matchable "abc\n" (by decide)
      (by decide)).1,
    (C2_resolveObjectId_total_on_matchable "abc\n" (by decide)
      (by decide)).2 (by decide),
    by decide⟩

/-- C3: a payload without the required `version` field makes
`post_object` raise `InvalidObjectData`, and no request reaches the
transport. -/
theorem C3_invalid_payload_short_circuits (st : ClientState)
    (payload : List (String × Json)) (token : Option String)
    (resp : HttpResponse) (h : List.lookup "version" payload = none) :
    (post_object st payload token resp).result = .error .invalidObjectData ∧
    (post_object st payload token resp).sent = [] := by
  have hv : postPayloadValid payload = false := by
    unfold postPayloadValid postDrsObjectFields
    simp [h]
  constructor <;> simp [post_object, hv]

/-- C3 (witness): the theorem applied to the empty payload. -/
theorem C3_witness :
    List.lookup "version" ([] : List (String × Json)) = none ∧
    (post_object plainState [] none ⟨200, none⟩).result
      = .error .invalidObjectData ∧
    (post_object plainState [] none ⟨200, none⟩).sent = [] :=
  ⟨rfl,
    (C3_invalid_payload_short_circuits plainState [] none ⟨200, none⟩ rfl).1,
    (C3_invalid_payload_short_circuits plainState [] none ⟨200, none⟩ rfl).2⟩

/-- C4 (counterexample): a 404 response whose body is the well-formed
JSON array `[]` does not parse as the Error shape, yet the call raises
`TypeError` (from expanding a non-mapping with `**`), not
`InvalidResponse` as claimed. -/
theorem C4_counterexample_array_body :
    (get_object plainState "OBJ1" none ⟨404, some (.arr [])⟩).result
      = .error .typeError ∧
    Err.typeError ≠ Err.invalidResponseError := ⟨rfl, by decide⟩

/-- C4 (amended): for every operation call whose response status is not a
2xx success (and whose identifier resolution / payload validation
succeeds so that a request is issued), the result is the shared error
branch: a malformed-JSON body raises `InvalidResponse`; a JSON-object
body carrying the Error fields is returned as a normal `Error` result; a
JSON-object body lacking an Error field raises `InvalidResponse`; a
well-formed JSON body that is not an object (for example an array)
raises an uncaught `TypeError` from keyword-argument expansion. -/
theorem C4_error_responses (st : ClientState) (objectId accessId : String)
    (payload : List (String × Json)) (token : Option String) (status : Nat)
    (body : Option Json) (hs : status < 200 ∨ 300 ≤ status) :
    ((getObjectId objectId).isSome = true →
      (get_object st objectId token ⟨status, body⟩).result
        = handleErrorBranch body ∧
      (get_access_url st objectId accessId token ⟨status, body⟩).result
        = handleErrorBranch body ∧
      (delete_object st objectId token ⟨status, body⟩).result
        = handleErrorBranch body) ∧
    (postPayloadValid payload = true →
      (post_object st payload token ⟨status, body⟩).result
        = handleErrorBranch body) ∧
    (body = none → handleErrorBranch body = .error .invalidResponseError) ∧
    (∀ kvs, body = some (.obj kvs) →
      (errorFields.all (fun k => (List.lookup k kvs).isSome) = true →
        handleErrorBranch body = .ok (.err (.obj kvs))) ∧
      (errorFields.all (fun k => (List.lookup k kvs).isSome) = false →
        handleErrorBranch body = .error .invalidResponseError)) ∧
    (∀ xs, body = some (.arr xs) →
      handleErrorBranch body = .error .typeError) := by
  have h200 : ¬status = 200 := by omega
  refine ⟨?_, ?_, ?_, ?_, ?_⟩
  · intro hid
    obtain ⟨v, hv⟩ := Option.isSome_iff_exists.mp hid
    refine ⟨?_, ?_, ?_⟩ <;>
      simp [get_object, get_access_url, delete_object, hv, dispatch, h200]
  · intro hpay
    simp [post_object, hpay, dispatch, h200]
  · rintro rfl; rfl
  · rintro kvs rfl
    constructor <;> intro hall <;>
      simp [handleErrorBranch, kwargsModel, hall]
  · rintro xs rfl; rfl

/-- C4 (witness): the amended theorem at a 404 with a well-formed Error
body (returned as a normal result) and at a 404 with a malformed body
(raising `InvalidResponse`). -/
theorem C4_witness :
    ((404:Nat) < 200 ∨ (300:Nat) ≤ 404) ∧
    (getObjectId "OBJ1").isSome = true ∧
    (get_object plainState "OBJ1" none ⟨404, some errBody⟩).result
      = handleErrorBranch (some errBody) ∧
    handleErrorBranch (some errBody) = .ok (.err errBody) ∧
    (get_object plainState "OBJ1" none ⟨404, none⟩).result
      = .error .invalidResponseError :=
  ⟨by decide, by decide,
    ((C4_error_responses plainState "OBJ1" "A" [] none 404 (some errBody)
        (Or.inr (by decide))).1 (by decide)).1,
    rfl,
    (((C4_error_responses plainState "OBJ1" "A" [] none 404 none
        (Or.inr (by decide))).1 (by decide)).1).trans
      ((C4_error_responses plainState "OBJ1" "A" [] none 404 none
        (Or.inr (by decide))).2.2.1 rfl)⟩

/-- C5 (counterexample): HTTP 201 is a 2xx success status, but the code
only treats 200 as success: a 201 response with an Error-shaped body —
which fails the operation's success shape — is returned as a normal
`Error` result instead of failing with `InvalidResponse`. -/
theorem C5_counterexample_201_error_path :
    kwargsModel drsObjectFields errBody = .error .validationError ∧
    (get_object plainState "OBJ1" none ⟨201, some errBody⟩).result
      = .ok (.err errBody) := ⟨rfl, rfl⟩

/-- C5 (amended): only status 200 is treated as success.  At 200: for
object fetch and access fetch, a JSON-object body that fails the
operation's success shape raises `InvalidResponse` rather than yielding a
success result, while a malformed-JSON body raises the uncaught JSON
decode error; for register and delete, a malformed-JSON body raises
`InvalidResponse` (their identifier-string success shape `str(...)`
cannot fail on decoded JSON). -/
theorem C5_success_shape_validation (st : ClientState)
    (objectId accessId : String) (payload : List (String × Json))
    (token : Option String) (j : Json)
    (hid : (getObjectId objectId).isSome = true)
    (hpay : postPayloadValid payload = true) :
    (kwargsModel drsObjectFields j = .error .validationError →
      (get_object st objectId token ⟨200, some j⟩).result
        = .error .invalidResponseError) ∧
    (kwargsModel accessURLFields j = .error .validationError →
      (get_access_url st objectId accessId token ⟨200, some j⟩).result
        = .error .invalidResponseError) ∧
    (post_object st payload token ⟨200, none⟩).result
      = .error .invalidResponseError ∧
    (delete_object st objectId token ⟨200, none⟩).result
      = .error .invalidResponseError ∧
    (get_object st objectId token ⟨200, none⟩).result
      = .error .jsonDecodeError := by
  obtain ⟨v, hv⟩ := Option.isSome_iff_exists.mp hid
  refine ⟨?_, ?_, ?_, ?_, ?_⟩
  · intro hj
    simp [get_object, hv, dispatch, getObjectSuccess, hj]
  · intro hj
    simp [get_access_url, hv, dispatch, getAccessURLSuccess, hj]
  · simp [post_object, hpay, dispatch, identSuccess]
  · simp [delete_object, hv, dispatch, identSuccess]
  · simp [get_object, hv, dispatch, getObjectSuccess]

/-- C5 (witness): the amended theorem at status 200 with an Error-shaped
body (which fails the object success shape) and with a malformed body. -/
theorem C5_witness :
    (getObjectId "OBJ1").isSome = true ∧
    postPayloadValid fullPostPayload = true ∧
    kwargsModel drsObjectFields errBody = .error .validationError ∧
    (get_object plainState "OBJ1" none ⟨200, some errBody⟩).result
      = .error .invalidResponseError ∧
    (post_object plainState fullPostPayload none ⟨200, none⟩).result
      = .error .invalidResponseError :=
  ⟨by decide, by decide, rfl,
    (C5_success_shape_validation plainState "OBJ1" "A" fullPostPayload none
        errBody (by decide) (by decide)).1 rfl,
    (C5_success_shape_validation plainState "OBJ1" "A" fullPostPayload none
        errBody (by decide) (by decide)).2.2.1⟩

/-- C6: client construction fails with `InvalidURI` both when the matched
host exceeds 253 characters and when the input matches no scheme/domain
pattern (malformed scheme, malformed domain, empty input). -/
theorem C6_invalidURI (uri : String) (port : Option Nat)
    (basePath : String) (useHttp : Bool) (token : Option String) :
    (∀ sch host, hostExtract uri = some (sch, host) → 253 < host.length →
      initClient uri port basePath useHttp token = .error .invalidURI) ∧
    (hostExtract uri = none →
      initClient uri port basePath useHttp token = .error .invalidURI) := by
  constructor
  · intro sch host hx hl
    simp [initClient, getHost, hx, hl]
  · intro hx
    simp [initClient, getHost, hx]

/-- C6 (witness): the theorem at a DRS URI with a 258-character host and
at a URI with a malformed scheme. -/
theorem C6_witness :
    hostExtract longUri = some ("drs", longHost) ∧
    253 < longHost.length ∧
    initClient longUri none "ga4gh/drs/v1" false none
      = .error .invalidURI ∧
    hostExtract "dr://fakehost.com/SOME_OBJECT" = none ∧
    initClient "dr://fakehost.com/SOME_OBJECT" none "ga4gh/drs/v1" false
      none = .error .invalidURI :=
  ⟨by decide, by decide,
    (C6_invalidURI longUri none "ga4gh/drs/v1" false none).1 "drs" longHost
      (by decide) (by decide),
    by decide,
    (C6_invalidURI "dr://fakehost.com/SOME_OBJECT" none "ga4gh/drs/v1"
      false none).2 (by decide)⟩

/-- C7 (amended): in the `drs_cli` client the claim holds — a `drs`
scheme is translated to `https` (`http` iff `use_http` is set), and a
missing port defaults to 80 exactly when the composed scheme string is
`http` and to 443 otherwise; the legacy `drs_client` constructor (see
the counterexample) performs no such translation and defaults the port
to the string `8080`. -/
theorem C7_scheme_and_port_defaults (uri basePath : String)
    (useHttp : Bool) (token : Option String) (sch host : String)
    (hx : hostExtract uri = some (sch, host)) (hl : host.length ≤ 253) :
    effectiveSchema "drs" useHttp = (if useHttp then "http" else "https") ∧
    defaultPort "https" = 443 ∧
    defaultPort "http" = 80 ∧
    initClient uri none basePath useHttp token =
      .ok { uri := effectiveSchema sch useHttp ++ "://" ++ host ++ ":" ++
              toString (defaultPort (effectiveSchema sch useHttp)) ++ "/" ++
              basePath
          , token := token
          , headers := getHeaders token } := by
  refine ⟨by simp [effectiveSchema], by decide, by decide, ?_⟩
  simp [initClient, getHost, hx, Nat.not_lt.mpr hl]

/-- C7 (witness): the amended theorem at `drs://my.host/x` with default
port: the composed endpoint is `https://my.host:443/ga4gh/drs/v1`. -/
theorem C7_witness :
    hostExtract "drs://my.host/x" = some ("drs", "my.host") ∧
    ("my.host" : String).length ≤ 253 ∧
    initClient "drs://my.host/x" none "ga4gh/drs/v1" false none =
      .ok { uri := effectiveSchema "drs" false ++ "://" ++ "my.host" ++
              ":" ++ toString (defaultPort (effectiveSchema "drs" false)) ++
              "/" ++ "ga4gh/drs/v1"
          , token := none, headers := getHeaders none } ∧
    effectiveSchema "drs" false ++ "://" ++ "my.host" ++ ":" ++
        toString (defaultPort (effectiveSchema "drs" false)) ++ "/" ++
        "ga4gh/drs/v1" = "https://my.host:443/ga4gh/drs/v1" :=
  ⟨by decide, by decide,
    (C7_scheme_and_port_defaults "drs://my.host/x" "ga4gh/drs/v1" false
      none "drs" "my.host" (by decide) (by decide)).2.2.2,
    by decide⟩

/-- C7 (counterexample): the legacy `drs_client` constructor interpolates
the host verbatim and defaults the port to 8080: for the input
`drs://my.host` without an explicit port, the effective scheme stays
`drs` (not `https`) and the port is 8080 (not 443). -/
theorem C7_counterexample_legacy_client :
    oldClientUrl "drs://my.host" "8080" "ga4gh/drs/v1"
      = "drs://my.host:8080/ga4gh/drs/v1" ∧
    startsWithCI "https".data "drs://my.host:8080/ga4gh/drs/v1".data
      = false :=
  ⟨by decide, by decide⟩

/-- C8: for a valid `drs://host/id` input — formalised as: the domain
matcher's first candidate on the text after `drs://` consumes exactly the
host, and the identifier is nonempty and newline-free — the resolver
returns the percent-encoding of the identifier with the empty safe set,
which contains no raw slash; `get_access_url` percent-encodes the
access-method identifier by the same `quote(..., safe='')` rule when it
builds the request URL. -/
theorem C8_percent_encoding (host id : String)
    (hhost : (hostCands (host.data ++ '/' :: id.data)).head?
      = some host.data.length)
    (hne : id ≠ "") (hnl : '\n' ∉ id.data) :
    getObjectId ("drs://" ++ host ++ "/" ++ id) = some (quote id) ∧
    '/' ∉ (quote id).data ∧
    (∀ st accessId token resp,
      (get_access_url st ("drs://" ++ host ++ "/" ++ id) accessId token
          resp).sent.map SentRequest.url
        = [st.uri ++ "/objects/" ++ quote id ++ "/access/" ++
            quote accessId]) := by
  have hcap := drsUriCapture_of_valid host id hhost hne hnl
  have hid : getObjectId ("drs://" ++ host ++ "/" ++ id)
      = some (quote id) := by
    unfold getObjectId
    rw [hcap]
  refine ⟨hid, quote_no_slash id, ?_⟩
  intro st accessId token resp
  simp [get_access_url, hid]

/-- C8 (witness): the theorem at host `my.host` and identifier
`SOME/OBJ`, whose encoding is `SOME%2FOBJ`. -/
theorem C8_witness :
    (hostCands (("my.host" : String).data ++ '/' ::
        ("SOME/OBJ" : String).data)).head?
      = some ("my.host" : String).data.length ∧
    ("SOME/OBJ" : String) ≠ "" ∧
    '\n' ∉ ("SOME/OBJ" : String).data ∧
    getObjectId "drs://my.host/SOME/OBJ" = some (quote "SOME/OBJ") ∧
    quote "SOME/OBJ" = "SOME%2FOBJ" ∧
    '/' ∉ (quote "SOME/OBJ").data :=
  ⟨by decide, by decide, by decide,
    (C8_percent_encoding "my.host" "SOME/OBJ" (by decide) (by decide)
      (by decide)).1,
    by decide,
    (C8_percent_encoding "my.host" "SOME/OBJ" (by decide) (by decide)
      (by decide)).2.1⟩

/-- C10: the host pattern `(part\.)+part\.?` requires at least two
dot-separated labels: every host a successful match captures contains a
dot, and every URI without a dot (such as `https://localhost` or
`drs://myhost/id`) makes client construction raise `InvalidURI`. -/
theorem C10_single_label_host_rejected :
    (∀ uri sch host, hostExtract uri = some (sch, host) →
      '.' ∈ host.data) ∧
    (∀ uri (port : Option Nat) (basePath : String) (useHttp : Bool)
        (token : Option String), '.' ∉ uri.data →
      initClient uri port basePath useHttp token = .error .invalidURI) := by
  constructor
  · exact hostExtract_host_has_dot
  · intro uri port basePath useHttp token h
    simp [initClient, getHost, hostExtract_none_of_no_dot uri h]

/-- C10 (witness): the theorem at `drs://my.host/x` (matched host
contains a dot) and at the dot-free URIs `https://localhost` and
`drs://myhost/id` (construction fails). -/
theorem C10_witness :
    hostExtract "drs://my.host/x" = some ("drs", "my.host") ∧
    '.' ∈ ("my.host" : String).data ∧
    '.' ∉ ("https://localhost" : String).data ∧
    initClient "https://localhost" none "ga4gh/drs/v1" false none
      = .error .invalidURI ∧
    '.' ∉ ("drs://myhost/id" : String).data ∧
    initClient "drs://myhost/id" none "ga4gh/drs/v1" false none
      = .error .invalidURI :=
  ⟨by decide,
    C10_single_label_host_rejected.1 "drs://my.host/x" "drs" "my.host"
      (by decide),
    by decide,
    C10_single_label_host_rejected.2 "https://localhost" none
      "ga4gh/drs/v1" false none (by decide),
    by decide,
    C10_single_label_host_rejected.2 "drs://myhost/id" none "ga4gh/drs/v1"
      false none (by decide)⟩

/-- C9: constructing the client from `https://my-drs.app/ignored` with
default port and base path ignores the path after the host and yields the
endpoint `https://my-drs.app:443/ga4gh/drs/v1`; the object-fetch URL for
`OBJ1` is exactly that endpoint followed by `/objects/OBJ1`. -/
theorem C9_endpoint_roundtrip :
    ∃ st, initClient "https://my-drs.app/ignored" none "ga4gh/drs/v1"
        false none = .ok st ∧
      st.uri = "https://my-drs.app:443/ga4gh/drs/v1" ∧
      (get_object st "OBJ1" none ⟨200, none⟩).sent.map SentRequest.url =
        ["https://my-drs.app:443/ga4gh/drs/v1/objects/OBJ1"] := by
  refine ⟨_, rfl, by decide, by decide⟩

end DRS
